import Mathlib

/-!
Shallow embedding of the connectivity and synchronization layer of the
homebridge-digitalSTROM plugin: certificate fingerprint validation,
the legacy controller client request/re-login loop, the new-API read
requests, the WebSocket reconnection state machine, listener dispatch,
and the per-device status handlers.
-/

/-! ## Certificate fingerprint validation (part_000.validateCertificate,
    part_000.retrieveCertificate, src/digitalStromAPI.ts initialize) -/

/-- Character class [0-9a-f] of the format regex in part_000. -/
def isLowerHexDigit (c : Char) : Bool :=
  (('0' ≤ c && c ≤ '9') || ('a' ≤ c && c ≤ 'f'))

/-- Character class [A-Fa-f0-9] of the sha256 regex in the src revision. -/
def isHexDigitAnyCase (c : Char) : Bool :=
  (('0' ≤ c && c ≤ '9') || ('a' ≤ c && c ≤ 'f') || ('A' ≤ c && c ≤ 'F'))

/-- The JS regex class \s, restricted to the ASCII whitespace characters. -/
def isJsWhitespace (c : Char) : Bool :=
  (c = ' ' || c = '\t' || c = '\n' || c = '\r' || c = '\x0b' || c = '\x0c')

/-- Format gate of part_000.validateCertificate:
    the regex (caret)[0-9a-f:]{95}(dollar)|(caret)[0-9a-f]{64}(dollar)
    tested against the raw expected fingerprint. -/
def fingerprintFormatOk (fp : List Char) : Bool :=
  (fp.length = 95 && fp.all (fun c => isLowerHexDigit c || c = ':'))
  || (fp.length = 64 && fp.all isLowerHexDigit)

/-- Normalization in part_000.retrieveCertificate: replace(/[:\s]/g, ...)
    dropping colons and whitespace, then toLowerCase. -/
def normalizeFingerprint (fp : List Char) : List Char :=
  (fp.filter (fun c => !(c = ':' || isJsWhitespace c))).map Char.toLower

/-- part_000.validateCertificate: null when the raw fingerprint fails the
    format regex; otherwise the computed (lowercase hex) digest is compared
    with the normalized expected fingerprint, returning the PEM string on
    a match and null on a mismatch. -/
def validateCertificate (computed : List Char) (pemCert : List Char)
    (fingerprint : List Char) : Option (List Char) :=
  if fingerprintFormatOk fingerprint then
    if computed = normalizeFingerprint fingerprint then some pemCert else none
  else none

/-- Outcome of the certificate check of the src revision initialize method. -/
inductive InitOutcome
  | invalidFormat
  | mismatch
  | validated
deriving DecidableEq, Repr

/-- Certificate-check path of initialize in src/digitalStromAPI.ts:
    spaces and dashes are removed from the configured fingerprint, the
    cleaned string must match (caret)[A-Fa-f0-9]{64}(dollar), and
    validateCertificate there compares the computed lowercase digest
    with fingerprint.toLowerCase. -/
def srcRevCertCheck (computed : List Char) (fingerprint : List Char) : InitOutcome :=
  let cleaned := fingerprint.filter (fun c => !(isJsWhitespace c || c = '-'))
  if !(cleaned.length = 64 && cleaned.all isHexDigitAnyCase) then
    InitOutcome.invalidFormat
  else if computed = cleaned.map Char.toLower then InitOutcome.validated
  else InitOutcome.mismatch

/-! ## Legacy controller client (part_001.digitalStromAPI.request) -/

/-- Decoded body of a legacy API response as discriminated by request:
    response.data.ok true, or ok false with the recognized authentication
    failure message, or ok false with another message, or a transport
    error thrown by axios (timeout or network error). -/
inductive LegacyResp
  | okResp
  | authFail
  | otherFail
  | netError
deriving DecidableEq, Repr

/-- Result of one request call as seen by its caller: a resolved value,
    a surfaced failure (the method logs and resolves with undefined), or
    fuel exhaustion marking non-termination of the retry recursion. -/
inductive ReqOutcome
  | success
  | surfaced
  | outOfFuel
deriving DecidableEq, Repr

/-- part_001.digitalStromAPI.request on one URI. The server is modelled as
    the sequence of responses to the consecutive attempts of this request;
    getSessionToken is assumed to succeed and is counted. Returns the
    outcome, the number of re-logins performed, and the next attempt index.
    On an ok:false response carrying the authentication failure message on
    a non-login URI the code performs getSessionToken and then recursively
    calls request on the same URI (the token-stripping split is a no-op
    because its separator is a literal string that never occurs), with no
    retry counter bounding the recursion. -/
def dsRequest (server : Nat → LegacyResp) (isLoginUri : Bool) :
    Nat → Nat → ReqOutcome × Nat × Nat
  | 0, i => (ReqOutcome.outOfFuel, 0, i)
  | fuel + 1, i =>
    match server i with
    | LegacyResp.okResp => (ReqOutcome.success, 0, i + 1)
    | LegacyResp.otherFail => (ReqOutcome.surfaced, 0, i + 1)
    | LegacyResp.netError => (ReqOutcome.surfaced, 0, i + 1)
    | LegacyResp.authFail =>
      if isLoginUri then (ReqOutcome.surfaced, 0, i + 1)
      else
        let r := dsRequest server isLoginUri fuel (i + 1)
        (r.1, r.2.1 + 1, r.2.2)

/-! ## New-API read requests (part_000.getApartment, part_000.getApartmentStatus,
    src/digitalStromAPI.ts dssApiRequest and getApartment) -/

/-- Result of one HTTP exchange as seen by the axios call: a response with
    a status code and decoded body, or a connection-level failure, or a
    client-side timeout. -/
inductive HttpResult (α : Type)
  | success (status : Nat) (body : α)
  | netError
  | timeout
deriving DecidableEq, Repr

/-- Failure taxonomy surfaced by the part_000 revision read requests. -/
inductive ApiError
  | serverError (status : Nat)
  | networkError
  | timeoutError
deriving DecidableEq, Repr

/-- Double-wrapped JSON:API body: the decoded response body exposes the
    payload under a data field. -/
structure ApiBody (α : Type) where
  data : α
deriving DecidableEq, Repr

/-- part_000.getApartment: the axios call rejects on any non-2xx status
    (default validateStatus), on timeout, and on network error; the catch
    block logs and rethrows, and a 2xx response yields body.data. -/
def part000getApartment {α : Type} (resp : HttpResult (ApiBody α)) : Except ApiError α :=
  match resp with
  | HttpResult.success s b =>
    if 200 ≤ s && s < 300 then Except.ok b.data else Except.error (ApiError.serverError s)
  | HttpResult.netError => Except.error ApiError.networkError
  | HttpResult.timeout => Except.error ApiError.timeoutError

/-- part_000.getApartmentStatus: identical control flow to part_000.getApartment
    on its own URI. -/
def part000getApartmentStatus {α : Type} (resp : HttpResult (ApiBody α)) : Except ApiError α :=
  match resp with
  | HttpResult.success s b =>
    if 200 ≤ s && s < 300 then Except.ok b.data else Except.error (ApiError.serverError s)
  | HttpResult.netError => Except.error ApiError.networkError
  | HttpResult.timeout => Except.error ApiError.timeoutError

/-- dssApiRequest of src/digitalStromAPI.ts: status 200 resolves with the
    body; 204 and every other resolved status fall through to a debug log
    and an undefined result; axios rejections (non-2xx, timeout, network)
    land in the catch block, which only logs. The method never rethrows,
    so the Except error branch is unreachable by construction. -/
def dssApiRequest {α : Type} (resp : HttpResult α) : Except ApiError (Option α) :=
  match resp with
  | HttpResult.success s b => if s = 200 then Except.ok (some b) else Except.ok none
  | HttpResult.netError => Except.ok none
  | HttpResult.timeout => Except.ok none

/-- getApartment of src/digitalStromAPI.ts: wraps dssApiRequest and returns
    json?.data, hence undefined whenever the request produced no data. -/
def srcGetApartment {α : Type} (resp : HttpResult (ApiBody α)) : Except ApiError (Option α) :=
  match dssApiRequest resp with
  | Except.ok (some b) => Except.ok (some b.data)
  | Except.ok none => Except.ok none
  | Except.error e => Except.error e

/-- Request failures in the sense of the spec: non-2xx status, timeout, or
    network error. -/
def isRequestFailure {α : Type} : HttpResult α → Bool
  | HttpResult.success s _ => !(200 ≤ s && s < 300)
  | HttpResult.netError => true
  | HttpResult.timeout => true

/-! ## WebSocket event channel (src/webSocketClient.ts) -/

/-- Maximum number of reconnection attempts. -/
def maxRetries : Nat := 10

/-- Base reconnection delay in milliseconds. -/
def BASE_RETRY_DELAY : Nat := 1000

/-- Reconnection delay ceiling in milliseconds. -/
def MAX_RETRY_DELAY : Nat := 30000

/-- Delay computed in the connectFailed handler after the increment:
    min(BASE_RETRY_DELAY * 2 pow (retryCount - 1), MAX_RETRY_DELAY). -/
def retryDelay (retryCount : Nat) : Nat :=
  min (BASE_RETRY_DELAY * 2 ^ (retryCount - 1)) MAX_RETRY_DELAY

/-- Connection-relevant mutable fields of WebSocketClient. -/
structure WsState where
  retryCount : Nat
  isConnecting : Bool
  connected : Bool
deriving DecidableEq, Repr

/-- What a call to connect does before any handler fires. -/
inductive ConnectAction
  | skipped
  | gaveUp
  | attempted
deriving DecidableEq, Repr

/-- Guard section of WebSocketClient.connect: an in-progress attempt is
    skipped; once retryCount has reached maxRetries the method logs, calls
    the callback with an error and returns without creating a client and
    without scheduling any timer; otherwise it marks isConnecting and
    starts an attempt. -/
def wsConnect (st : WsState) : WsState × ConnectAction :=
  if st.isConnecting then (st, ConnectAction.skipped)
  else if maxRetries ≤ st.retryCount then (st, ConnectAction.gaveUp)
  else ({ st with isConnecting := true }, ConnectAction.attempted)

/-- connectFailed handler: clears isConnecting, increments retryCount and
    schedules a reconnect timer with the exponential-backoff delay computed
    from the incremented counter. Returns the new state and that delay. -/
def connectFailedStep (st : WsState) : WsState × Nat :=
  let rc := st.retryCount + 1
  ({ st with isConnecting := false, retryCount := rc }, retryDelay rc)

/-- connect handler on success: clears isConnecting, resets retryCount to
    zero and stores the connection. -/
def connectSucceededStep (st : WsState) : WsState :=
  { st with isConnecting := false, retryCount := 0, connected := true }

/-- One complete failed connection attempt: a connect call whose attempt,
    if one is started, ends in the connectFailed handler. -/
def failCycle (st : WsState) : WsState :=
  match wsConnect st with
  | (st1, ConnectAction.attempted) => (connectFailedStep st1).1
  | (st1, _) => st1

/-- Iterated failed attempts. -/
def failCycleIter : Nat → WsState → WsState
  | 0, st => st
  | n + 1, st => failCycleIter n (failCycle st)

/-- Initial state of a fresh WebSocketClient before its constructor calls
    connect. -/
def wsInitState : WsState := { retryCount := 0, isConnecting := false, connected := false }

/-! ## Listener dispatch (src/webSocketClient.ts handleMessage,
    addMessageListener) -/

/-- Parsed inbound frame: the destructuring of msg.split on the semicolon
    binds the first part to command and the second, possibly undefined,
    part to payload. -/
structure WsMessage where
  command : List Char
  payload : Option (List Char)
deriving DecidableEq, Repr

/-- A registered listener: a key and a callback. A callback returning none
    models a callback that throws. -/
structure WsListener where
  id : String
  callback : WsMessage → Option Unit

/-- Removal of the first occurrence of the record-separator control
    character, as performed by msg.replace with a plain string pattern. -/
def removeFirstSep : List Char → List Char
  | [] => []
  | c :: cs => if c = '\x1e' then cs else c :: removeFirstSep cs

/-- Parsing done at the top of handleMessage: strip the first control
    separator, split on the semicolon, and take the first two parts. -/
def parseWsMessage (raw : List Char) : WsMessage :=
  let parts := (removeFirstSep raw).splitOn ';'
  { command := parts.headD [], payload := parts.get? 1 }

/-- The listeners.forEach dispatch loop: callbacks run synchronously in
    registration order; a callback that throws aborts the forEach, so the
    remaining listeners are not invoked. Returns the keys of the invoked
    listeners in order, and whether an exception escaped the loop. -/
def dispatchListeners : List WsListener → WsMessage → List String × Bool
  | [], _ => ([], false)
  | l :: rest, m =>
    match l.callback m with
    | some _ =>
      let r := dispatchListeners rest m
      (l.id :: r.1, r.2)
    | none => ([l.id], true)

/-- handleMessage of src/webSocketClient.ts: parse the frame, dispatch to
    every registered listener inside one try block whose catch only logs,
    so an exception from any callback ends the dispatch for this message
    but does not propagate to the caller. -/
def handleMessage (listeners : List WsListener) (raw : List Char) : List String × Bool :=
  dispatchListeners listeners (parseWsMessage raw)

/-! ## Device status model and handlers (digitalStromTypes.ts,
    part_002.LightPlatformAccessory, accessories/lights.ts,
    accessories/shades.ts) -/

/-- A JavaScript runtime value in a numeric position of the status JSON:
    a finite number, NaN, or absent. -/
inductive JsVal
  | num (q : ℚ)
  | nan
  | undef
deriving DecidableEq, Repr

/-- Math.round for finite numbers: round half up. -/
def jsRound (q : ℚ) : Int := Int.floor (q + 1 / 2)

/-- Guarded rounding of part_002: typeof x number and not NaN gives
    Math.round(x), every other value gives 0. -/
def roundOrZero : JsVal → Int
  | JsVal.num q => jsRound q
  | _ => 0

/-- Unguarded Math.round of the older handler revisions: a non-number
    argument coerces to NaN. -/
def mathRound : JsVal → JsVal
  | JsVal.num q => JsVal.num ((jsRound q : Int) : ℚ)
  | _ => JsVal.nan

/-- OutputStatus of digitalStromTypes.ts, with the runtime-optional numeric
    fields the handlers read. -/
structure OutputStatus where
  id : String
  value : JsVal
  targetValue : JsVal
  status : Option String
  initialValue : JsVal
deriving DecidableEq, Repr

/-- FunctionBlockStatus of digitalStromTypes.ts: outputs is optional. -/
structure FunctionBlockStatus where
  id : String
  outputs : Option (List OutputStatus)
deriving DecidableEq, Repr

/-- The attributes object of DeviceStatus: functionBlocks is optional. -/
structure DeviceStatusAttributes where
  functionBlocks : Option (List FunctionBlockStatus)
deriving DecidableEq, Repr

/-- DeviceStatus of digitalStromTypes.ts. -/
structure DeviceStatus where
  id : String
  attributes : Option DeviceStatusAttributes
deriving DecidableEq, Repr

/-- The included object of ApartmentStatus: dsDevices is optional. -/
structure IncludedStatus where
  dsDevices : Option (List DeviceStatus)
deriving DecidableEq, Repr

/-- ApartmentStatus of digitalStromTypes.ts. -/
structure ApartmentStatus where
  included : Option IncludedStatus
deriving DecidableEq, Repr

/-- Cached values of LightPlatformAccessory (part_002): integers, guarded
    at every assignment. -/
structure LightState where
  hasBrightness : Bool
  targetValue : Int
  brightness : Int
deriving DecidableEq, Repr

/-- Cached values of the older LightAccessory (accessories/lights.ts):
    assigned by unguarded Math.round, hence possibly NaN. -/
structure LightStateOld where
  hasBrightness : Bool
  targetValue : JsVal
  brightness : JsVal
deriving DecidableEq, Repr

/-- Cached values of the older ShadeAccessory (accessories/shades.ts). -/
structure ShadeStateOld where
  currentPosition : JsVal
  targetPosition : JsVal
  positionState : Option String
deriving DecidableEq, Repr

/-- updateState of part_002.LightPlatformAccessory: locate the device by id
    through optional chaining, return unchanged when the chained access to
    the outputs of the first function block is undefined, otherwise update
    targetValue from the brightness output (guarded round, 0 for a missing
    or NaN value) and, when brightness is supported, the brightness cache
    likewise. Optional chaining makes every access total, so the method
    never throws. -/
def LightPlatformAccessory.updateState (deviceId : String) (st : LightState)
    (aps : ApartmentStatus) : LightState :=
  let deviceStatus :=
    (aps.included.bind (fun inc => inc.dsDevices)).bind
      (fun ds => ds.find? (fun d => d.id == deviceId))
  let outputsOpt :=
    ((deviceStatus.bind (fun d => d.attributes)).bind
      (fun a => a.functionBlocks)).bind (fun fbs => fbs.head?) |>.bind
        (fun fb => fb.outputs)
  match outputsOpt with
  | none => st
  | some outputs =>
    match outputs.find? (fun o => o.id == "brightness") with
    | none => st
    | some bo =>
      let st1 := { st with targetValue := roundOrZero bo.targetValue }
      if st1.hasBrightness then { st1 with brightness := roundOrZero bo.value }
      else st1

/-- updateState of the older LightAccessory (accessories/lights.ts): no
    optional chaining, so a missing included object, missing dsDevices
    array, absent device entry, missing attributes or functionBlocks, an
    empty functionBlocks array, or a missing brightness output raises a
    TypeError (modelled as Except.error); an absent outputs field is
    falsy and skips the update; otherwise both caches are assigned by
    unguarded Math.round. -/
def LightAccessory.updateState (deviceId : String) (st : LightStateOld)
    (aps : ApartmentStatus) : Except Unit LightStateOld :=
  match aps.included with
  | none => Except.error ()
  | some inc =>
    match inc.dsDevices with
    | none => Except.error ()
    | some ds =>
      match ds.find? (fun d => d.id == deviceId) with
      | none => Except.error ()
      | some dev =>
        match dev.attributes with
        | none => Except.error ()
        | some attrs =>
          match attrs.functionBlocks with
          | none => Except.error ()
          | some fbs =>
            match fbs.head? with
            | none => Except.error ()
            | some fb0 =>
              match fb0.outputs with
              | none => Except.ok st
              | some outputs =>
                match outputs.find? (fun o => o.id == "brightness") with
                | none => Except.error ()
                | some bo =>
                  let st1 := { st with targetValue := mathRound bo.targetValue }
                  Except.ok
                    (if st1.hasBrightness then
                      { st1 with brightness := mathRound bo.value }
                    else st1)

/-- updateState of the older ShadeAccessory (accessories/shades.ts): same
    access chain and TypeError behaviour as the older light handler; with
    outputs present, positionState is taken from the status field of the
    shadePositionOutside output, currentPosition from initialValue while
    moving and from value otherwise, and targetPosition from targetValue,
    all through unguarded Math.round. -/
def ShadeAccessory.updateState (deviceId : String) (st : ShadeStateOld)
    (aps : ApartmentStatus) : Except Unit ShadeStateOld :=
  match aps.included with
  | none => Except.error ()
  | some inc =>
    match inc.dsDevices with
    | none => Except.error ()
    | some ds =>
      match ds.find? (fun d => d.id == deviceId) with
      | none => Except.error ()
      | some dev =>
        match dev.attributes with
        | none => Except.error ()
        | some attrs =>
          match attrs.functionBlocks with
          | none => Except.error ()
          | some fbs =>
            match fbs.head? with
            | none => Except.error ()
            | some fb0 =>
              match fb0.outputs with
              | none => Except.ok st
              | some outputs =>
                match outputs.find? (fun o => o.id == "shadePositionOutside") with
                | none => Except.error ()
                | some so =>
                  let ps := so.status
                  let cur :=
                    if ps = some "moving" then mathRound so.initialValue
                    else mathRound so.value
                  Except.ok
                    { positionState := ps, currentPosition := cur,
                      targetPosition := mathRound so.targetValue }

/-! ## Concrete status fixtures used by scenario claims -/

/-- Snapshot of the spec scenario: device dev1 with a brightness output
    whose value and targetValue are both 42. -/
def aps42 : ApartmentStatus :=
  { included := some { dsDevices := some [
      { id := "dev1", attributes := some { functionBlocks := some [
          { id := "fb1", outputs := some [
              { id := "brightness", value := JsVal.num 42, targetValue := JsVal.num 42,
                status := none, initialValue := JsVal.undef } ] } ] } } ] } }

/-- Snapshot in which dev1 is present with a function block but without an
    outputs array, as during controller maintenance windows. -/
def apsNoOutputs : ApartmentStatus :=
  { included := some { dsDevices := some [
      { id := "dev1", attributes := some { functionBlocks := some [
          { id := "fb1", outputs := none } ] } } ] } }

/-- Snapshot whose device list contains no entry with id dev1. -/
def apsOtherDevice : ApartmentStatus :=
  { included := some { dsDevices := some [ { id := "other", attributes := none } ] } }

/-- Snapshot in which the brightness output of dev1 carries NaN as value
    and no targetValue at all. -/
def apsNaN : ApartmentStatus :=
  { included := some { dsDevices := some [
      { id := "dev1", attributes := some { functionBlocks := some [
          { id := "fb1", outputs := some [
              { id := "brightness", value := JsVal.nan, targetValue := JsVal.undef,
                status := none, initialValue := JsVal.undef } ] } ] } } ] } }

/-! ## Helper lemmas -/

/-- Against a server that answers every attempt with the authentication
    failure message, the legacy request loop performs one re-login per
    attempt and consumes all its fuel without ever surfacing the failure. -/
theorem dsRequest_authLoop (fuel : Nat) :
    ∀ i, dsRequest (fun _ => LegacyResp.authFail) false fuel i
      = (ReqOutcome.outOfFuel, fuel, i + fuel) := by
  induction fuel with
  | zero => intro i; simp [dsRequest]
  | succ n ih =>
    intro i
    simp [dsRequest, ih, Prod.ext_iff]
    omega

/-- The list of invoked listener keys is a prefix of the registration
    order. -/
theorem dispatch_prefix (ls : List WsListener) (m : WsMessage) :
    (dispatchListeners ls m).1 <+: ls.map (fun l => l.id) := by
  induction ls with
  | nil => simp [dispatchListeners]
  | cons l rest ih =>
    simp only [dispatchListeners, List.map_cons]
    cases h : l.callback m with
    | none => simp
    | some _ => simpa using ih

/-- When no callback throws, every listener is invoked, in registration
    order, and no exception escapes the loop. -/
theorem dispatch_all_ok (ls : List WsListener) (m : WsMessage)
    (h : ∀ l ∈ ls, l.callback m ≠ none) :
    dispatchListeners ls m = (ls.map (fun l => l.id), false) := by
  induction ls with
  | nil => simp [dispatchListeners]
  | cons l rest ih =>
    have hl := h l (by simp)
    cases hc : l.callback m with
    | none => exact absurd hc hl
    | some _ =>
      simp only [dispatchListeners, hc]
      rw [ih (fun x hx => h x (by simp [hx]))]
      simp

/-- A throwing callback ends the dispatch: exactly the listeners up to and
    including the thrower are invoked, and the exception escapes the
    forEach into the surrounding catch. -/
theorem dispatch_abort (pre : List WsListener) (l : WsListener) (post : List WsListener)
    (m : WsMessage) (hpre : ∀ p ∈ pre, p.callback m ≠ none) (hl : l.callback m = none) :
    dispatchListeners (pre ++ l :: post) m = (pre.map (fun p => p.id) ++ [l.id], true) := by
  induction pre with
  | nil => simp [dispatchListeners, hl]
  | cons p rest ih =>
    have hp := hpre p (by simp)
    cases hc : p.callback m with
    | none => exact absurd hc hp
    | some _ =>
      simp only [List.cons_append, dispatchListeners, hc, List.append_eq]
      rw [ih (fun x hx => hpre x (by simp [hx]))]
      simp

/-! ## Claim theorems -/

/-- C1 counterexample. Against a server that rejects three consecutive
    attempts of a non-login request with the authentication failure
    message, part_001.digitalStromAPI.request performs three re-logins
    (not exactly one) and has not surfaced the failure after the second
    consecutive authentication failure, contradicting the claim that one
    re-login and one retry are followed by surfacing the failure. -/
theorem legacyAuthRetry_counterexample :
    (dsRequest (fun _ => LegacyResp.authFail) false 3 0).2.1 = 3
    ∧ (dsRequest (fun _ => LegacyResp.authFail) false 3 0).1 ≠ ReqOutcome.surfaced := by
  decide

/-- C1 amended. When a non-login request is rejected with the
    authentication failure message, part_001.digitalStromAPI.request
    performs a re-login and retries, and repeats this for every further
    authentication failure with no bound: with fuel attempts available,
    a persistently auth-failing server consumes all fuel with one
    re-login per attempt and never surfaces the failure; a retry that
    succeeds stops after exactly one re-login, and a retry that fails
    with a different message surfaces after exactly one re-login. -/
theorem legacyAuthRetry_unbounded :
    (∀ fuel i, dsRequest (fun _ => LegacyResp.authFail) false fuel i
      = (ReqOutcome.outOfFuel, fuel, i + fuel))
    ∧ dsRequest (fun j => if j = 0 then LegacyResp.authFail else LegacyResp.okResp) false 2 0
      = (ReqOutcome.success, 1, 2)
    ∧ dsRequest (fun j => if j = 0 then LegacyResp.authFail else LegacyResp.otherFail) false 2 0
      = (ReqOutcome.surfaced, 1, 2) :=
  ⟨fun fuel i => dsRequest_authLoop fuel i, by decide, by decide⟩

/-- C2. Applying a snapshot in which the device entry is present with a
    function block but without an outputs array leaves the cached values
    of all three device handler revisions unchanged: the part_002 light
    handler returns its state as is, and the older light and shade
    handlers take the falsy-outputs branch and return without assigning. -/
theorem partialData_skip (devId : String) (stN : LightState) (stO : LightStateOld)
    (stS : ShadeStateOld) (aps : ApartmentStatus) (inc : IncludedStatus)
    (ds : List DeviceStatus) (dev : DeviceStatus) (attrs : DeviceStatusAttributes)
    (fbs : List FunctionBlockStatus) (fb0 : FunctionBlockStatus)
    (h1 : aps.included = some inc) (h2 : inc.dsDevices = some ds)
    (h3 : ds.find? (fun d => d.id == devId) = some dev)
    (h4 : dev.attributes = some attrs) (h5 : attrs.functionBlocks = some fbs)
    (h6 : fbs.head? = some fb0) (h7 : fb0.outputs = none) :
    LightPlatformAccessory.updateState devId stN aps = stN
    ∧ LightAccessory.updateState devId stO aps = Except.ok stO
    ∧ ShadeAccessory.updateState devId stS aps = Except.ok stS := by
  refine ⟨?_, ?_, ?_⟩
  · simp [LightPlatformAccessory.updateState, h1, h2, h3, h4, h5, h6, h7]
  · simp [LightAccessory.updateState, h1, h2, h3, h4, h5, h6, h7]
  · simp [ShadeAccessory.updateState, h1, h2, h3, h4, h5, h6, h7]

/-- C2 witness. The skip property evaluated on the concrete
    maintenance-window snapshot for device dev1. -/
theorem partialData_skip_witness :
    LightPlatformAccessory.updateState "dev1" ⟨true, 7, 9⟩ apsNoOutputs = ⟨true, 7, 9⟩
    ∧ LightAccessory.updateState "dev1" ⟨true, JsVal.num 7, JsVal.num 9⟩ apsNoOutputs
      = Except.ok ⟨true, JsVal.num 7, JsVal.num 9⟩
    ∧ ShadeAccessory.updateState "dev1" ⟨JsVal.num 3, JsVal.num 4, some "ok"⟩ apsNoOutputs
      = Except.ok ⟨JsVal.num 3, JsVal.num 4, some "ok"⟩ :=
  partialData_skip "dev1" ⟨true, 7, 9⟩ ⟨true, JsVal.num 7, JsVal.num 9⟩
    ⟨JsVal.num 3, JsVal.num 4, some "ok"⟩
    apsNoOutputs { dsDevices := some [
      { id := "dev1", attributes := some { functionBlocks := some [
          { id := "fb1", outputs := none } ] } } ] }
    [ { id := "dev1", attributes := some { functionBlocks := some [
          { id := "fb1", outputs := none } ] } } ]
    { id := "dev1", attributes := some { functionBlocks := some [
        { id := "fb1", outputs := none } ] } }
    { functionBlocks := some [ { id := "fb1", outputs := none } ] }
    [ { id := "fb1", outputs := none } ] { id := "fb1", outputs := none }
    rfl rfl rfl rfl rfl rfl rfl

/-- C3 counterexample. The format gate of part_000.validateCertificate
    accepts only lowercase fingerprints: for the same 64 hex digits the
    all-lowercase form is accepted while the all-uppercase form is
    rejected, although both normalize identically, so the accept or
    reject outcome does not depend only on the hex digits; the src
    revision gate likewise rejects the colon-separated form of digits it
    accepts in bare form. -/
theorem fingerprintGate_counterexample :
    normalizeFingerprint (List.replicate 64 'A') = normalizeFingerprint (List.replicate 64 'a')
    ∧ validateCertificate (List.replicate 64 'a') ['p'] (List.replicate 64 'a') = some ['p']
    ∧ validateCertificate (List.replicate 64 'a') ['p'] (List.replicate 64 'A') = none
    ∧ srcRevCertCheck (List.replicate 64 'a')
        ((List.replicate 31 ['a', 'a', ':']).flatten ++ ['a', 'a']) = InitOutcome.invalidFormat
    ∧ srcRevCertCheck (List.replicate 64 'a') (List.replicate 64 'a') = InitOutcome.validated := by
  decide

/-- C3 amended. Among expected fingerprints that pass the lowercase-only
    format gate of part_000.validateCertificate (bare 64-character or
    95-character hex-and-colon forms), the accept or reject outcome
    depends only on the normalized hex digits: any two accepted forms
    with equal normalizations validate identically against any computed
    digest. -/
theorem fingerprintNormalization_amended (computed pem f1 f2 : List Char)
    (h1 : fingerprintFormatOk f1 = true) (h2 : fingerprintFormatOk f2 = true)
    (h3 : normalizeFingerprint f1 = normalizeFingerprint f2) :
    validateCertificate computed pem f1 = validateCertificate computed pem f2 := by
  simp [validateCertificate, h1, h2, h3]

/-- C3 witness. The bare lowercase form and the colon-separated lowercase
    form of the same 64 digits validate identically. -/
theorem fingerprintNormalization_witness :
    validateCertificate (List.replicate 64 'a') ['p'] (List.replicate 64 'a')
      = validateCertificate (List.replicate 64 'a') ['p']
        ((List.replicate 31 ['a', 'a', ':']).flatten ++ ['a', 'a']) :=
  fingerprintNormalization_amended _ _ _ _ (by decide) (by decide) (by decide)

/-- C4. The reconnection delay scheduled by consecutive runs of the
    connectFailed handler is non-decreasing, never exceeds
    MAX_RETRY_DELAY (30 s), and a successful connection resets the
    retry counter to zero so that the next failure schedules exactly
    BASE_RETRY_DELAY. -/
theorem reconnectBackoff_props :
    (∀ st : WsState, (connectFailedStep st).2 ≤ (connectFailedStep (connectFailedStep st).1).2)
    ∧ (∀ st : WsState, (connectFailedStep st).2 ≤ MAX_RETRY_DELAY)
    ∧ (∀ st : WsState, (connectSucceededStep st).retryCount = 0
        ∧ (connectFailedStep (connectSucceededStep st)).2 = BASE_RETRY_DELAY) := by
  refine ⟨?_, ?_, ?_⟩
  · intro st
    simp only [connectFailedStep, retryDelay]
    simp only [Nat.add_sub_cancel]
    exact min_le_min
      (Nat.mul_le_mul_left _ (Nat.pow_le_pow_right (by norm_num) (by omega))) le_rfl
  · intro st
    simp only [connectFailedStep, retryDelay]
    exact min_le_right _ _
  · intro st
    constructor
    · rfl
    · simp [connectFailedStep, connectSucceededStep, retryDelay,
        BASE_RETRY_DELAY, MAX_RETRY_DELAY]

/-- C5. Ten consecutive failed connection attempts from the initial state
    drive retryCount to maxRetries, and from any non-connecting state at
    or beyond maxRetries a connect call returns immediately with the
    give-up action, leaving the state unchanged, so no attempt is started
    and no reconnect timer is scheduled: the state is terminal. -/
theorem reconnectGivenUp_terminal :
    (failCycleIter 10 wsInitState).retryCount = 10
    ∧ (∀ st : WsState, maxRetries ≤ st.retryCount → st.isConnecting = false →
        wsConnect st = (st, ConnectAction.gaveUp))
    ∧ wsConnect (failCycleIter 10 wsInitState)
      = (failCycleIter 10 wsInitState, ConnectAction.gaveUp) := by
  refine ⟨by decide, ?_, by decide⟩
  intro st h1 h2
  simp [wsConnect, h1, h2]

/-- C5 witness. The give-up behaviour evaluated at the concrete state
    with retryCount ten and no attempt in progress. -/
theorem reconnectGivenUp_witness :
    wsConnect ⟨10, false, false⟩ = (⟨10, false, false⟩, ConnectAction.gaveUp) :=
  reconnectGivenUp_terminal.2.1 ⟨10, false, false⟩ (by decide) rfl

/-- C6 counterexample. With two registered listeners of which the first
    throws, handleMessage invokes only the first listener: the second,
    registered after it, is never invoked for that message, contradicting
    the claim that one throwing listener does not prevent delivery to the
    listeners registered after it. -/
theorem listenerDispatch_counterexample :
    handleMessage [⟨"a", fun _ => none⟩, ⟨"b", fun _ => some ()⟩] ['x'] = (["a"], true) := by
  rfl

/-- C6 amended. Listeners are invoked synchronously in registration order
    on each inbound message and, when no callback throws, all of them are
    invoked; but the single try block of handleMessage wraps the whole
    forEach, so a throwing callback ends delivery for that message after
    the throwing listener, and the exception is caught and logged once at
    the message level rather than per dispatch. -/
theorem listenerDispatch_amended :
    (∀ (ls : List WsListener) (raw : List Char),
      (handleMessage ls raw).1 <+: ls.map (fun l => l.id))
    ∧ (∀ (ls : List WsListener) (raw : List Char),
        (∀ l ∈ ls, l.callback (parseWsMessage raw) ≠ none) →
        handleMessage ls raw = (ls.map (fun l => l.id), false))
    ∧ (∀ (pre : List WsListener) (l : WsListener) (post : List WsListener) (raw : List Char),
        (∀ p ∈ pre, p.callback (parseWsMessage raw) ≠ none) →
        l.callback (parseWsMessage raw) = none →
        handleMessage (pre ++ l :: post) raw = (pre.map (fun p => p.id) ++ [l.id], true)) :=
  ⟨fun ls raw => dispatch_prefix ls (parseWsMessage raw),
   fun ls raw h => dispatch_all_ok ls (parseWsMessage raw) h,
   fun pre l post raw hpre hl => dispatch_abort pre l post (parseWsMessage raw) hpre hl⟩

/-- C6 witness. With three listeners of which the middle one throws, the
    first two are invoked in order and the third is not. -/
theorem listenerDispatch_witness :
    handleMessage [⟨"a", fun _ => some ()⟩, ⟨"b", fun _ => none⟩, ⟨"c", fun _ => some ()⟩] ['x']
      = (["a", "b"], true) := by
  have h := listenerDispatch_amended.2.2 [⟨"a", fun _ => some ()⟩] ⟨"b", fun _ => none⟩
    [⟨"c", fun _ => some ()⟩] ['x'] (by intro p hp; simp at hp; subst hp; simp) rfl
  simpa using h

/-- C7 counterexample. In the src revision, a 500 response to getApartment
    is swallowed by dssApiRequest and resolves to undefined instead of
    being surfaced as a thrown failure, contradicting the claim that any
    request failure of the read operations is thrown to the caller. -/
theorem readFailure_counterexample :
    srcGetApartment (HttpResult.success 500 (ApiBody.mk (0 : Nat))) = Except.ok none := by
  rfl

/-- C7 amended. In the part_000 revision, getApartment and
    getApartmentStatus surface every request failure (non-2xx status,
    timeout, network error) as a thrown error; in the src revision,
    dssApiRequest catches and logs every failure and getApartment
    resolves to undefined, so a synchronization cycle detects missing
    data through an undefined result rather than a thrown failure. -/
theorem readFailure_amended :
    (∀ (α : Type) (s : Nat) (b : ApiBody α), isRequestFailure (HttpResult.success s b) = true →
      part000getApartment (HttpResult.success s b) = Except.error (ApiError.serverError s)
      ∧ part000getApartmentStatus (HttpResult.success s b) = Except.error (ApiError.serverError s))
    ∧ (∀ (α : Type),
        part000getApartment (HttpResult.netError : HttpResult (ApiBody α))
          = Except.error ApiError.networkError
        ∧ part000getApartment (HttpResult.timeout : HttpResult (ApiBody α))
          = Except.error ApiError.timeoutError
        ∧ part000getApartmentStatus (HttpResult.netError : HttpResult (ApiBody α))
          = Except.error ApiError.networkError
        ∧ part000getApartmentStatus (HttpResult.timeout : HttpResult (ApiBody α))
          = Except.error ApiError.timeoutError)
    ∧ (∀ (α : Type) (resp : HttpResult (ApiBody α)), isRequestFailure resp = true →
        srcGetApartment resp = Except.ok none) := by
  refine ⟨?_, ?_, ?_⟩
  · intro α s b hfail
    simp only [isRequestFailure, Bool.not_eq_true'] at hfail
    constructor <;> simp [part000getApartment, part000getApartmentStatus, hfail]
  · intro α
    exact ⟨rfl, rfl, rfl, rfl⟩
  · intro α resp hfail
    cases resp with
    | success s b =>
      have hne : s ≠ 200 := by
        intro hs
        subst hs
        simp [isRequestFailure] at hfail
      simp [srcGetApartment, dssApiRequest, hne]
    | netError => rfl
    | timeout => rfl

/-- C7 witness. A 503 response is thrown by the part_000 revision and
    swallowed to undefined by the src revision. -/
theorem readFailure_witness :
    srcGetApartment (HttpResult.success 503 (ApiBody.mk (0 : Nat))) = Except.ok none
    ∧ part000getApartment (HttpResult.success 503 (ApiBody.mk (0 : Nat)))
      = Except.error (ApiError.serverError 503) := by
  constructor
  · exact readFailure_amended.2.2 Nat (HttpResult.success 503 (ApiBody.mk 0)) (by decide)
  · exact (readFailure_amended.1 Nat 503 (ApiBody.mk 0) (by decide)).1

/-- C8. Applying the scenario snapshot, in which device dev1 carries a
    brightness output with value 42 and targetValue 42, updates any
    brightness-capable handler cache to targetValue 42 and brightness 42,
    and the resulting on-state (targetValue greater than zero) is true;
    this holds for the part_002 handler and for the older revision. -/
theorem brightnessScenario_update (st : LightState) (stO : LightStateOld)
    (h : st.hasBrightness = true) (hO : stO.hasBrightness = true) :
    LightPlatformAccessory.updateState "dev1" st aps42
      = { hasBrightness := true, targetValue := 42, brightness := 42 }
    ∧ 0 < (LightPlatformAccessory.updateState "dev1" st aps42).targetValue
    ∧ LightAccessory.updateState "dev1" stO aps42
      = Except.ok ⟨true, JsVal.num 42, JsVal.num 42⟩ := by
  have hround : jsRound 42 = 42 := by norm_num [jsRound]
  have hN : LightPlatformAccessory.updateState "dev1" st aps42
      = { hasBrightness := true, targetValue := 42, brightness := 42 } := by
    simp [LightPlatformAccessory.updateState, aps42, roundOrZero, h, hround]
  refine ⟨hN, by rw [hN]; norm_num, ?_⟩
  simp [LightAccessory.updateState, aps42, mathRound, hO, hround]

/-- C8 witness. The scenario update evaluated from the concrete caches
    with both values 7. -/
theorem brightnessScenario_witness :
    LightPlatformAccessory.updateState "dev1" ⟨true, 7, 7⟩ aps42 = ⟨true, 42, 42⟩
    ∧ 0 < (LightPlatformAccessory.updateState "dev1" ⟨true, 7, 7⟩ aps42).targetValue
    ∧ LightAccessory.updateState "dev1" ⟨true, JsVal.num 7, JsVal.num 7⟩ aps42
      = Except.ok ⟨true, JsVal.num 42, JsVal.num 42⟩ :=
  brightnessScenario_update ⟨true, 7, 7⟩ ⟨true, JsVal.num 7, JsVal.num 7⟩ rfl rfl

/-- C9. When no device entry of the snapshot carries the accessory device
    id, part_002.LightPlatformAccessory.updateState returns the cached
    state unchanged; the optional-chaining access path is total, so no
    exception can be raised. -/
theorem deviceAbsent_noop (devId : String) (st : LightState) (aps : ApartmentStatus)
    (h : ∀ ds, aps.included.bind (fun inc => inc.dsDevices) = some ds →
      ∀ dev ∈ ds, (dev.id == devId) = false) :
    LightPlatformAccessory.updateState devId st aps = st := by
  simp only [LightPlatformAccessory.updateState]
  cases hds : aps.included.bind (fun inc => inc.dsDevices) with
  | none => simp
  | some ds =>
    have hfind : ds.find? (fun d => d.id == devId) = none := by
      rw [List.find?_eq_none]
      intro x hx
      simp [h ds hds x hx]
    simp [hfind]

/-- C9 witness. A snapshot whose only device entry has a different id
    leaves the cache for dev1 unchanged. -/
theorem deviceAbsent_noop_witness :
    LightPlatformAccessory.updateState "dev1" ⟨true, 7, 9⟩ apsOtherDevice = ⟨true, 7, 9⟩ := by
  apply deviceAbsent_noop
  intro ds hds dev hdev
  simp [apsOtherDevice] at hds
  subst hds
  simp at hdev
  subst hdev
  decide

/-- C10. When the brightness output for the device is present,
    part_002.LightPlatformAccessory.updateState always assigns the
    caches: a NaN or absent targetValue is cached as 0, making the
    on-state false, and a numeric targetValue is rounded to the nearest
    integer; the brightness cache behaves the same way on the value field
    when brightness is supported. -/
theorem invalidTargetValue_zeroed (devId : String) (st : LightState) (aps : ApartmentStatus)
    (inc : IncludedStatus) (ds : List DeviceStatus) (dev : DeviceStatus)
    (attrs : DeviceStatusAttributes) (fbs : List FunctionBlockStatus)
    (fb0 : FunctionBlockStatus) (outputs : List OutputStatus) (bo : OutputStatus)
    (h1 : aps.included = some inc) (h2 : inc.dsDevices = some ds)
    (h3 : ds.find? (fun d => d.id == devId) = some dev)
    (h4 : dev.attributes = some attrs) (h5 : attrs.functionBlocks = some fbs)
    (h6 : fbs.head? = some fb0) (h7 : fb0.outputs = some outputs)
    (h8 : outputs.find? (fun o => o.id == "brightness") = some bo) :
    ((bo.targetValue = JsVal.nan ∨ bo.targetValue = JsVal.undef) →
      (LightPlatformAccessory.updateState devId st aps).targetValue = 0
      ∧ ¬ 0 < (LightPlatformAccessory.updateState devId st aps).targetValue)
    ∧ (∀ q, bo.targetValue = JsVal.num q →
      (LightPlatformAccessory.updateState devId st aps).targetValue = jsRound q)
    ∧ (st.hasBrightness = true →
      ((bo.value = JsVal.nan ∨ bo.value = JsVal.undef) →
        (LightPlatformAccessory.updateState devId st aps).brightness = 0)
      ∧ (∀ q, bo.value = JsVal.num q →
        (LightPlatformAccessory.updateState devId st aps).brightness = jsRound q)) := by
  have hupd : LightPlatformAccessory.updateState devId st aps
      = (let st1 : LightState := { st with targetValue := roundOrZero bo.targetValue }
         if st1.hasBrightness then { st1 with brightness := roundOrZero bo.value } else st1) := by
    simp [LightPlatformAccessory.updateState, h1, h2, h3, h4, h5, h6, h7, h8]
  refine ⟨?_, ?_, ?_⟩
  · intro hv
    rw [hupd]
    rcases hv with hv | hv <;> simp [hv, roundOrZero] <;> split <;> simp
  · intro q hq
    rw [hupd, hq]
    simp only [roundOrZero]
    split <;> simp
  · intro hb
    constructor
    · intro hv
      rw [hupd]
      simp only [hb, if_pos]
      rcases hv with hv | hv <;> simp [hv, roundOrZero]
    · intro q hq
      rw [hupd]
      simp only [hb, if_pos]
      simp [hq, roundOrZero]

/-- C10 witness. With a NaN value and an absent targetValue on the
    brightness output, both caches are set to 0. -/
theorem invalidTargetValue_witness :
    (LightPlatformAccessory.updateState "dev1" ⟨true, 7, 9⟩ apsNaN).targetValue = 0
    ∧ (LightPlatformAccessory.updateState "dev1" ⟨true, 7, 9⟩ apsNaN).brightness = 0 := by
  have h := invalidTargetValue_zeroed "dev1" ⟨true, 7, 9⟩ apsNaN
    { dsDevices := some [
      { id := "dev1", attributes := some { functionBlocks := some [
          { id := "fb1", outputs := some [
              { id := "brightness", value := JsVal.nan, targetValue := JsVal.undef,
                status := none, initialValue := JsVal.undef } ] } ] } } ] }
    [ { id := "dev1", attributes := some { functionBlocks := some [
          { id := "fb1", outputs := some [
              { id := "brightness", value := JsVal.nan, targetValue := JsVal.undef,
                status := none, initialValue := JsVal.undef } ] } ] } } ]
    { id := "dev1", attributes := some { functionBlocks := some [
        { id := "fb1", outputs := some [
            { id := "brightness", value := JsVal.nan, targetValue := JsVal.undef,
              status := none, initialValue := JsVal.undef } ] } ] } }
    { functionBlocks := some [
        { id := "fb1", outputs := some [
            { id := "brightness", value := JsVal.nan, targetValue := JsVal.undef,
              status := none, initialValue := JsVal.undef } ] } ] }
    [ { id := "fb1", outputs := some [
          { id := "brightness", value := JsVal.nan, targetValue := JsVal.undef,
            status := none, initialValue := JsVal.undef } ] } ]
    { id := "fb1", outputs := some [
        { id := "brightness", value := JsVal.nan, targetValue := JsVal.undef,
          status := none, initialValue := JsVal.undef } ] }
    [ { id := "brightness", value := JsVal.nan, targetValue := JsVal.undef,
        status := none, initialValue := JsVal.undef } ]
    { id := "brightness", value := JsVal.nan, targetValue := JsVal.undef,
      status := none, initialValue := JsVal.undef }
    rfl rfl rfl rfl rfl rfl rfl rfl
  exact ⟨(h.1 (Or.inr rfl)).1, (h.2.2 rfl).1 (Or.inl rfl)⟩
